import Mathlib

/-!
Verification of the gofr relational connection manager and migration runner
against its specification. The Go implementation of the SQL datasource and
the migration runner is not part of the visible slice (only its tests are),
so the operations are modelled from the specification, with every behaviour
that the visible tests pin down taken from those tests.
-/

namespace Gofr

/-- Connection configuration, mirroring the Go struct DBConfig with fields
Dialect, HostName, User, Password, Port and Database (all strings). -/
structure DBConfig where
  dialect : String
  hostName : String
  user : String
  password : String
  port : String
  database : String
deriving DecidableEq, Repr

/-- Error kinds of SQL datasource construction, mirroring
errUnsupportedDialect and the driver-registration failure logged by NewSQL. -/
inductive SQLError where
  | unsupportedDialect
  | driverRegistrationFailed
deriving DecidableEq, Repr

/-- Modelled from the spec: getDBConnectionString builds the dialect-specific
connection string. Its outputs are pinned verbatim by the test table in
TestSQL_getDBConnectionString: mysql and postgres use the documented literal
formats, sqlite uses file:database, and any other dialect yields the empty
string together with errUnsupportedDialect. -/
def getDBConnectionString (c : DBConfig) : String × Option SQLError :=
  if c.dialect = "mysql" then
    (c.user ++ ":" ++ c.password ++ "@tcp(" ++ c.hostName ++ ":" ++ c.port ++
      ")/" ++ c.database ++
      "?charset=utf8&parseTime=True&loc=Local&interpolateParams=true", none)
  else if c.dialect = "postgres" then
    ("host=" ++ c.hostName ++ " port=" ++ c.port ++ " user=" ++ c.user ++
      " password=" ++ c.password ++ " dbname=" ++ c.database ++
      " sslmode=disable", none)
  else if c.dialect = "sqlite" then
    ("file:" ++ c.database, none)
  else
    ("", some SQLError.unsupportedDialect)

end Gofr

namespace Gofr

/-- Observable side effects of SQL datasource construction: error logging,
driver registration for tracing, the attempt to open the pooled connection,
and the retry loop's per-attempt retrying log and fixed sleep. -/
inductive SQLEffect where
  | logError (e : SQLError)
  | registerDriver (dialect : String)
  | openPool (connString : String)
  | logRetrying
  | sleepSeconds (n : Nat)
deriving DecidableEq, Repr

/-- The pooled connection handle returned by a successful construction. -/
structure DB where
  connString : String
deriving DecidableEq, Repr

/-- Modelled from the spec: NewSQL resolves the configuration. An empty
dialect is treated as no database configured and returns a nil handle with
no side effect; an unsupported dialect logs errUnsupportedDialect and aborts;
a failed driver registration for the trace-instrumented variant logs the
failure and aborts (behaviour pinned by TestNewSQL_InvalidConfig,
TestNewSQL_InvalidDialect and TestNewSQL_ErrorCase); otherwise the pool is
opened with the resolved connection string. The registerOK flag stands for
the outcome of the driver registration call. -/
def NewSQL (cfg : DBConfig) (registerOK : Bool) : Option DB × List SQLEffect :=
  if cfg.dialect = "" then (none, [])
  else
    match getDBConnectionString cfg with
    | (_, some e) => (none, [SQLEffect.logError e])
    | (s, none) =>
      if registerOK then
        (some ⟨s⟩, [SQLEffect.registerDriver cfg.dialect, SQLEffect.openPool s])
      else
        (none, [SQLEffect.registerDriver cfg.dialect,
          SQLEffect.logError SQLError.driverRegistrationFailed])

/-- Modelled from the spec: the fixed sleep interval of the connect-retry
loop, on the order of one second. -/
def sqlRetryIntervalSeconds : Nat := 1

/-- Modelled from the spec: the blocking connect-retry loop entered when the
initial open or ping of the pool fails. outcomes gives the result of each
successive ping attempt; fuel bounds how far the unbounded loop is observed
(a result of none means the loop is still retrying, not that it failed).
Each failed attempt logs a retrying message and sleeps the fixed interval,
as observed by Test_SQLRetryConnectionInfoLog. -/
def retrySQLConnection (outcomes : Nat → Bool) :
    Nat → Nat → Option Nat × List SQLEffect
  | 0, _ => (none, [])
  | fuel+1, i =>
    if outcomes i then (some i, [])
    else
      let p := retrySQLConnection outcomes fuel (i+1)
      (p.1, SQLEffect.logRetrying ::
        SQLEffect.sleepSeconds sqlRetryIntervalSeconds :: p.2)

/-- Only attempts whose ping succeeded are ever reported as the connection
result by the retry loop. -/
theorem retrySQL_some_outcome (outcomes : Nat → Bool) :
    ∀ fuel i k, (retrySQLConnection outcomes fuel i).1 = some k →
      outcomes k = true := by
  intro fuel
  induction fuel with
  | zero => intro i k h; simp [retrySQLConnection] at h
  | succ n ih =>
    intro i k h
    by_cases hi : outcomes i
    · simp [retrySQLConnection, hi] at h
      simpa [h] using hi
    · simp [retrySQLConnection, hi] at h
      exact ih (i+1) k h

/-- When every attempt fails, the loop never terminates: observed to any fuel
bound it is still retrying, having logged and slept once per attempt. -/
theorem retrySQL_all_fail (outcomes : Nat → Bool)
    (h : ∀ j, outcomes j = false) :
    ∀ fuel i, retrySQLConnection outcomes fuel i =
      (none, List.flatten (List.replicate fuel
        [SQLEffect.logRetrying,
          SQLEffect.sleepSeconds sqlRetryIntervalSeconds])) := by
  intro fuel
  induction fuel with
  | zero => intro i; simp [retrySQLConnection]
  | succ n ih =>
    intro i
    simp [retrySQLConnection, h i, ih (i+1), List.replicate_succ]

/-- Claim C1: for each supported dialect, getDBConnectionString returns exactly
the documented literal connection-string format, and for any unrecognized
non-empty dialect it returns errUnsupportedDialect with an empty string. -/
theorem getDBConnectionString_formats (c : DBConfig) :
    (c.dialect = "mysql" →
      getDBConnectionString c =
        (c.user ++ ":" ++ c.password ++ "@tcp(" ++ c.hostName ++ ":" ++
          c.port ++ ")/" ++ c.database ++
          "?charset=utf8&parseTime=True&loc=Local&interpolateParams=true",
          none)) ∧
    (c.dialect = "postgres" →
      getDBConnectionString c =
        ("host=" ++ c.hostName ++ " port=" ++ c.port ++ " user=" ++ c.user ++
          " password=" ++ c.password ++ " dbname=" ++ c.database ++
          " sslmode=disable", none)) ∧
    (c.dialect = "sqlite" →
      getDBConnectionString c = ("file:" ++ c.database, none)) ∧
    (c.dialect ≠ "mysql" → c.dialect ≠ "postgres" → c.dialect ≠ "sqlite" →
      c.dialect ≠ "" →
      getDBConnectionString c = ("", some SQLError.unsupportedDialect)) := by
  refine ⟨?_, ?_, ?_, ?_⟩ <;> intro h <;> simp [getDBConnectionString, h]
  intro h2 h3 h4
  simp [h2, h3, h4]

/-- Witness for C1 at the concrete configs of TestSQL_getDBConnectionString:
the mysql row and the unsupported mssql row evaluate to the expected pairs. -/
theorem getDBConnectionString_formats_witness :
    getDBConnectionString
        ⟨"mysql", "host", "user", "password", "3201", "test"⟩ =
      ("user:password@tcp(host:3201)/test?charset=utf8&parseTime=True&loc=Local&interpolateParams=true",
        none) ∧
    getDBConnectionString ⟨"mssql", "", "", "", "", ""⟩ =
      ("", some SQLError.unsupportedDialect) :=
  ⟨(getDBConnectionString_formats
      ⟨"mysql", "host", "user", "password", "3201", "test"⟩).1 rfl,
    (getDBConnectionString_formats ⟨"mssql", "", "", "", "", ""⟩).2.2.2
      (by decide) (by decide) (by decide) (by decide)⟩

/-- Claim C3: with an empty dialect, NewSQL is a silent no-op: it yields no
database handle, performs no effect at all, in particular never attempts to
open a connection and never logs or returns an error. -/
theorem NewSQL_empty_dialect (cfg : DBConfig) (registerOK : Bool)
    (h : cfg.dialect = "") :
    NewSQL cfg registerOK = (none, []) ∧
    (∀ s, SQLEffect.openPool s ∉ (NewSQL cfg registerOK).2) ∧
    (∀ e, SQLEffect.logError e ∉ (NewSQL cfg registerOK).2) := by
  refine ⟨by simp [NewSQL, h], ?_, ?_⟩ <;> intro x <;> simp [NewSQL, h]

/-- Witness for C3 at the config of TestNewSQL_InvalidConfig: only the
dialect key is set, and it is empty. -/
theorem NewSQL_empty_dialect_witness :
    NewSQL ⟨"", "", "", "", "", ""⟩ true = (none, []) :=
  (NewSQL_empty_dialect ⟨"", "", "", "", "", ""⟩ true rfl).1

/-- Claim C6: an unsupported non-empty dialect and a failed driver
registration are each fatal to NewSQL: the error is logged and construction
aborts with no handle, no connection attempt and no retrying. -/
theorem NewSQL_fatal_errors (cfg : DBConfig) (registerOK : Bool) :
    (cfg.dialect ≠ "" →
      (getDBConnectionString cfg).2 = some SQLError.unsupportedDialect →
      NewSQL cfg registerOK =
          (none, [SQLEffect.logError SQLError.unsupportedDialect]) ∧
        (∀ s, SQLEffect.openPool s ∉ (NewSQL cfg registerOK).2) ∧
        SQLEffect.logRetrying ∉ (NewSQL cfg registerOK).2) ∧
    ((getDBConnectionString cfg).2 = none →
      NewSQL cfg false =
          (none, [SQLEffect.registerDriver cfg.dialect,
            SQLEffect.logError SQLError.driverRegistrationFailed]) ∧
        (∀ s, SQLEffect.openPool s ∉ (NewSQL cfg false).2) ∧
        SQLEffect.logRetrying ∉ (NewSQL cfg false).2) := by
  constructor
  · intro h1 h2
    have hdb : NewSQL cfg registerOK =
        (none, [SQLEffect.logError SQLError.unsupportedDialect]) := by
      unfold NewSQL
      rw [if_neg h1]
      rcases hg : getDBConnectionString cfg with ⟨s, e⟩
      rw [hg] at h2
      simp at h2
      simp [h2]
    refine ⟨hdb, ?_, ?_⟩ <;> simp [hdb]
  · intro h2
    have hdb : NewSQL cfg false =
        (none, [SQLEffect.registerDriver cfg.dialect,
          SQLEffect.logError SQLError.driverRegistrationFailed]) := by
      have h1 : cfg.dialect ≠ "" := by
        intro he
        simp [getDBConnectionString, he] at h2
      unfold NewSQL
      rw [if_neg h1]
      rcases hg : getDBConnectionString cfg with ⟨s, e⟩
      rw [hg] at h2
      simp at h2
      simp [h2]
    refine ⟨hdb, ?_, ?_⟩ <;> simp [hdb]

/-- Witness for C6 at the configs of TestNewSQL_InvalidDialect (dialect abc)
and TestNewSQL_ErrorCase (dialect mysql with registration failing). -/
theorem NewSQL_fatal_errors_witness :
    NewSQL ⟨"abc", "localhost", "", "", "", ""⟩ true =
        (none, [SQLEffect.logError SQLError.unsupportedDialect]) ∧
    NewSQL ⟨"mysql", "localhost", "testuser", "testpassword", "3306",
        "testdb"⟩ false =
      (none, [SQLEffect.registerDriver "mysql",
        SQLEffect.logError SQLError.driverRegistrationFailed]) :=
  ⟨((NewSQL_fatal_errors ⟨"abc", "localhost", "", "", "", ""⟩ true).1
      (by decide) (by decide)).1,
    ((NewSQL_fatal_errors ⟨"mysql", "localhost", "testuser", "testpassword",
        "3306", "testdb"⟩ true).2 (by decide)).1⟩

/-- Claim C7: the connect-retry loop never reports a failed attempt as its
result (it can only yield a successful attempt or still be running), each
failed attempt logs a retrying message and sleeps the fixed one-second
interval before the next attempt, and when every attempt fails the loop is
still retrying at every fuel bound — it has no upper bound and never returns
a connect error to the caller. -/
theorem retrySQL_unbounded (outcomes : Nat → Bool) (fuel i : Nat) :
    (∀ k, (retrySQLConnection outcomes fuel i).1 = some k →
      outcomes k = true) ∧
    (outcomes i = false →
      retrySQLConnection outcomes (fuel+1) i =
        ((retrySQLConnection outcomes fuel (i+1)).1,
          SQLEffect.logRetrying ::
            SQLEffect.sleepSeconds sqlRetryIntervalSeconds ::
            (retrySQLConnection outcomes fuel (i+1)).2)) ∧
    ((∀ j, outcomes j = false) →
      retrySQLConnection outcomes fuel i =
        (none, List.flatten (List.replicate fuel
          [SQLEffect.logRetrying,
            SQLEffect.sleepSeconds sqlRetryIntervalSeconds]))) := by
  refine ⟨retrySQL_some_outcome outcomes fuel i, ?_,
    fun h => retrySQL_all_fail outcomes h fuel i⟩
  intro h
  simp [retrySQLConnection, h]

/-- Witness for C7: with every attempt failing, two observed iterations
yield two retrying logs and two one-second sleeps and no result. -/
theorem retrySQL_unbounded_witness :
    retrySQLConnection (fun _ => false) 2 0 =
      (none, [SQLEffect.logRetrying, SQLEffect.sleepSeconds 1,
        SQLEffect.logRetrying, SQLEffect.sleepSeconds 1]) := by
  have h := (retrySQL_unbounded (fun _ => false) 2 0).2.2 (fun j => rfl)
  simpa [sqlRetryIntervalSeconds] using h

/-- Migration transaction bundle migrationData: one transaction handle per
participating datastore kind, with none modelling a nil handle. SQLTx is the
relational handle the sql migrator owns; RedisTx stands for the handle a
key-value migrator further down the chain may contribute. -/
structure migrationData where
  SQLTx : Option Nat
  RedisTx : Option Nat
deriving DecidableEq, Repr

/-- Modelled from the spec and TestBeginTransactionSuccess and
TestBeginTransactionDBError: sqlMigrator.beginTransaction calls Begin on the
database, whose outcome is the pair txRes (handle) and errRes (error). On a
Begin error it returns an empty bundle, whose SQL handle is nil, at once; on
success it delegates to the next migrator of the chain and returns that
migrator's bundle with its SQLTx field set to the handle Begin produced. The
returned flag records whether the next migrator's beginTransaction ran. -/
def sqlMigrator_beginTransaction (txRes : Option Nat) (errRes : Option String)
    (next : Unit → migrationData) : migrationData × Bool :=
  if errRes.isSome then (⟨none, none⟩, false)
  else ({ next () with SQLTx := txRes }, true)

/-- Database operations the rollback path can perform. -/
inductive TxOp where
  | rollbackTxOp (tx : Nat)
deriving DecidableEq, Repr

/-- Modelled from the spec and TestRollbackNoTransaction:
sqlMigrator.rollback rolls the bundle's SQL transaction back when one is
present and does nothing when the bundle's handle is nil. -/
def sqlMigrator_rollback (data : migrationData) : List TxOp :=
  match data.SQLTx with
  | none => []
  | some tx => [TxOp.rollbackTxOp tx]

/-- Events of a migration run, tagged with the migration version. -/
inductive RunEvent where
  | beginTx (v : Nat)
  | applyBody (v : Nat)
  | commitTx (v : Nat)
  | rollbackTx (v : Nat)
deriving DecidableEq, Repr

/-- The version a run event belongs to. -/
def RunEvent.version : RunEvent → Nat
  | .beginTx v => v
  | .applyBody v => v
  | .commitTx v => v
  | .rollbackTx v => v

/-- Error results of a migration run. -/
inductive RunError where
  | beginFailed (v : Nat)
  | bodyFailed (v : Nat)
  | commitFailed (v : Nat)
deriving DecidableEq, Repr

/-- Modelled from the spec: the runner's loop over the pending versions.
begins gives, per version, the handle and error returned by Begin; body and
commit give each migration body's and commit's outcome. Each iteration
begins a bundle through the sql migrator (the rest of the chain contributing
nothing here), checks the bundle's handle for nil before treating it as
usable, runs the body, and commits with the ledger record or rolls the
bundle back; any begin or body failure rolls back and stops the run, and a
commit failure stops the run. -/
def runPending (begins : Nat → Option Nat × Option String)
    (body : Nat → Bool) (commit : Nat → Bool) :
    List Nat → List RunEvent × Option RunError
  | [] => ([], none)
  | v :: rest =>
    let bundle := (sqlMigrator_beginTransaction (begins v).1 (begins v).2
      (fun _ => ⟨none, none⟩)).1
    match bundle.SQLTx with
    | none =>
      (RunEvent.beginTx v ::
        (sqlMigrator_rollback bundle).map (fun _ => RunEvent.rollbackTx v),
        some (RunError.beginFailed v))
    | some _ =>
      if body v then
        if commit v then
          let r := runPending begins body commit rest
          (RunEvent.beginTx v :: RunEvent.applyBody v ::
            RunEvent.commitTx v :: r.1, r.2)
        else
          ([RunEvent.beginTx v, RunEvent.applyBody v, RunEvent.commitTx v],
            some (RunError.commitFailed v))
      else
        (RunEvent.beginTx v :: RunEvent.applyBody v ::
          (sqlMigrator_rollback bundle).map (fun _ => RunEvent.rollbackTx v),
          some (RunError.bodyFailed v))

/-- Modelled from the spec: the pending set is the ascending sort of the
registered versions strictly greater than the last applied migration. -/
def pendingVersions (registry : List Nat) (last : Nat) : List Nat :=
  List.insertionSort (· ≤ ·) (registry.filter (fun v => last < v))

/-- Modelled from the spec: Run computes the pending versions from the
registry and the last applied migration and executes them in ascending
order through the per-migration loop. -/
def Run (registry : List Nat) (last : Nat)
    (begins : Nat → Option Nat × Option String)
    (body : Nat → Bool) (commit : Nat → Bool) :
    List RunEvent × Option RunError :=
  runPending begins body commit (pendingVersions registry last)

/-- A version at which Begin yields a usable handle and both the body and
the commit succeed. -/
def okRun (begins : Nat → Option Nat × Option String)
    (body : Nat → Bool) (commit : Nat → Bool) (v : Nat) : Prop :=
  (begins v).2 = none ∧ (begins v).1.isSome ∧ body v = true ∧ commit v = true

instance (begins : Nat → Option Nat × Option String)
    (body commit : Nat → Bool) (v : Nat) :
    Decidable (okRun begins body commit v) := by
  unfold okRun
  infer_instance

/-- The event trace of a fully successful pass over a list of versions. -/
def successEvents (l : List Nat) : List RunEvent :=
  l.flatMap (fun v =>
    [RunEvent.beginTx v, RunEvent.applyBody v, RunEvent.commitTx v])

/-- A fully successful head version contributes begin, body and commit and
the loop continues with the remaining versions. -/
theorem runPending_ok_head (begins : Nat → Option Nat × Option String)
    (body commit : Nat → Bool) (v : Nat) (rest : List Nat)
    (h : okRun begins body commit v) :
    runPending begins body commit (v :: rest) =
      (RunEvent.beginTx v :: RunEvent.applyBody v :: RunEvent.commitTx v ::
        (runPending begins body commit rest).1,
        (runPending begins body commit rest).2) := by
  obtain ⟨he, ht, hb, hc⟩ := h
  obtain ⟨t, ht2⟩ := Option.isSome_iff_exists.mp ht
  simp [runPending, sqlMigrator_beginTransaction, he, ht2, hb, hc]

/-- A fully successful run applies every version in list order. -/
theorem runPending_all_ok (begins : Nat → Option Nat × Option String)
    (body commit : Nat → Bool) :
    ∀ l, (∀ v ∈ l, okRun begins body commit v) →
      runPending begins body commit l = (successEvents l, none) := by
  intro l
  induction l with
  | nil => intro _; simp [runPending, successEvents]
  | cons v rest ih =>
    intro h
    rw [runPending_ok_head begins body commit v rest (h v (by simp))]
    rw [ih (fun w hw => h w (by simp [hw]))]
    simp [successEvents]

/-- A fully successful prefix contributes its success events and the loop
continues with the remaining versions. -/
theorem runPending_ok_prefix (begins : Nat → Option Nat × Option String)
    (body commit : Nat → Bool) :
    ∀ p1 rest, (∀ w ∈ p1, okRun begins body commit w) →
      runPending begins body commit (p1 ++ rest) =
        (successEvents p1 ++ (runPending begins body commit rest).1,
          (runPending begins body commit rest).2) := by
  intro p1
  induction p1 with
  | nil => intro rest _; simp [successEvents]
  | cons v p ih =>
    intro rest h
    rw [List.cons_append, runPending_ok_head begins body commit v (p ++ rest)
      (h v (by simp))]
    rw [ih rest (fun w hw => h w (by simp [hw]))]
    simp [successEvents]

/-- When Begin errors or yields a nil handle at the head version, the runner
rolls back (a no-op on the nil bundle), reports the begin failure and never
reaches the remaining versions. -/
theorem runPending_begin_fail (begins : Nat → Option Nat × Option String)
    (body commit : Nat → Bool) (v : Nat) (rest : List Nat)
    (h : (begins v).2.isSome = true ∨ (begins v).1 = none) :
    runPending begins body commit (v :: rest) =
      ([RunEvent.beginTx v], some (RunError.beginFailed v)) := by
  have hnil : ((sqlMigrator_beginTransaction (begins v).1 (begins v).2
      (fun _ => ⟨none, none⟩)).1).SQLTx = none := by
    rcases h with h | h
    · simp [sqlMigrator_beginTransaction, h]
    · rcases he : (begins v).2 with _ | e
      · simp [sqlMigrator_beginTransaction, he, h]
      · simp [sqlMigrator_beginTransaction, he]
  simp [runPending, hnil, sqlMigrator_rollback]

/-- When the head version's body fails on a usable bundle, the runner rolls
the bundle back, reports the body failure and never reaches the remaining
versions. -/
theorem runPending_body_fail (begins : Nat → Option Nat × Option String)
    (body commit : Nat → Bool) (v : Nat) (rest : List Nat)
    (he : (begins v).2 = none) (ht : (begins v).1.isSome = true)
    (hb : body v = false) :
    runPending begins body commit (v :: rest) =
      ([RunEvent.beginTx v, RunEvent.applyBody v, RunEvent.rollbackTx v],
        some (RunError.bodyFailed v)) := by
  obtain ⟨t, ht2⟩ := Option.isSome_iff_exists.mp ht
  simp [runPending, sqlMigrator_beginTransaction, he, ht2, hb,
    sqlMigrator_rollback]

/-- The pending set holds exactly the registered versions strictly greater
than the last applied one. -/
theorem pendingVersions_mem (registry : List Nat) (last v : Nat) :
    v ∈ pendingVersions registry last ↔ v ∈ registry ∧ last < v := by
  unfold pendingVersions
  rw [(List.perm_insertionSort (· ≤ ·)
    (registry.filter (fun v => last < v))).mem_iff]
  simp

/-- The pending set of a duplicate-free registry is strictly ascending. -/
theorem pendingVersions_sorted (registry : List Nat) (last : Nat)
    (hnd : registry.Nodup) :
    List.Sorted (· < ·) (pendingVersions registry last) := by
  have hle : List.Sorted (· ≤ ·) (pendingVersions registry last) :=
    List.sorted_insertionSort (· ≤ ·) (registry.filter (fun v => last < v))
  have hnd2 : (pendingVersions registry last).Nodup :=
    (List.perm_insertionSort (· ≤ ·)
      (registry.filter (fun v => last < v))).nodup_iff.mpr (hnd.filter _)
  exact hle.lt_of_le hnd2

/-- Every success event over a version list belongs to a version of that
list. -/
theorem successEvents_versions (l : List Nat) (e : RunEvent)
    (he : e ∈ successEvents l) : RunEvent.version e ∈ l := by
  simp [successEvents] at he
  obtain ⟨w, hw, hc⟩ := he
  rcases hc with h | h | h <;> subst h <;> simpa [RunEvent.version]

/-- Claim C2: over any duplicate-free registry and any last applied version,
the runner works on exactly the registered versions strictly greater than
lastMigration, in strictly ascending order; when every pending migration
fully succeeds it applies them all; and when a pending migration's begin or
body fails after a fully successful prefix, the runner rolls that
migration's bundle back, returns that error, and produces no event for any
later pending version. -/
theorem migration_run_order (registry : List Nat) (last : Nat)
    (begins : Nat → Option Nat × Option String)
    (body commit : Nat → Bool) (hnd : registry.Nodup) :
    (∀ v, v ∈ pendingVersions registry last ↔ v ∈ registry ∧ last < v) ∧
    List.Sorted (· < ·) (pendingVersions registry last) ∧
    ((∀ v ∈ pendingVersions registry last, okRun begins body commit v) →
      Run registry last begins body commit =
        (successEvents (pendingVersions registry last), none)) ∧
    (∀ p1 v p2, pendingVersions registry last = p1 ++ v :: p2 →
      (∀ w ∈ p1, okRun begins body commit w) →
      ((((begins v).2.isSome = true ∨ (begins v).1 = none) →
        Run registry last begins body commit =
          (successEvents p1 ++ [RunEvent.beginTx v],
            some (RunError.beginFailed v))) ∧
        ((begins v).2 = none → (begins v).1.isSome = true → body v = false →
          Run registry last begins body commit =
            (successEvents p1 ++ [RunEvent.beginTx v, RunEvent.applyBody v,
              RunEvent.rollbackTx v],
              some (RunError.bodyFailed v))) ∧
        (((begins v).2.isSome = true ∨ (begins v).1 = none ∨
            body v = false) →
          ∀ w ∈ p2, ∀ e ∈ (Run registry last begins body commit).1,
            RunEvent.version e ≠ w))) := by
  refine ⟨pendingVersions_mem registry last,
    pendingVersions_sorted registry last hnd, ?_, ?_⟩
  · intro h
    unfold Run
    exact runPending_all_ok begins body commit _ h
  · intro p1 v p2 hp hok
    have hbf : ((begins v).2.isSome = true ∨ (begins v).1 = none) →
        Run registry last begins body commit =
          (successEvents p1 ++ [RunEvent.beginTx v],
            some (RunError.beginFailed v)) := by
      intro hb
      unfold Run
      rw [hp, runPending_ok_prefix begins body commit p1 (v :: p2) hok,
        runPending_begin_fail begins body commit v p2 hb]
    have hbodyf : (begins v).2 = none → (begins v).1.isSome = true →
        body v = false →
        Run registry last begins body commit =
          (successEvents p1 ++ [RunEvent.beginTx v, RunEvent.applyBody v,
            RunEvent.rollbackTx v],
            some (RunError.bodyFailed v)) := by
      intro he ht hb
      unfold Run
      rw [hp, runPending_ok_prefix begins body commit p1 (v :: p2) hok,
        runPending_body_fail begins body commit v p2 he ht hb]
    refine ⟨hbf, hbodyf, ?_⟩
    intro hfail w hw e hev
    have hnd2 : (p1 ++ v :: p2).Nodup := by
      rw [← hp]
      exact (List.perm_insertionSort (· ≤ ·)
        (registry.filter (fun x => last < x))).nodup_iff.mpr (hnd.filter _)
    have hdisj : p1.Disjoint (v :: p2) := (List.nodup_append.mp hnd2).2.2
    have hvp2 : v ∉ p2 :=
      (List.nodup_cons.mp (List.nodup_append.mp hnd2).2.1).1
    have hwp1 : w ∉ p1 := fun hwp => hdisj hwp (by simp [hw])
    have hwv : w ≠ v := fun hweq => hvp2 (hweq ▸ hw)
    intro hq
    by_cases hbegin : (begins v).2.isSome = true ∨ (begins v).1 = none
    · have hrun := hbf hbegin
      rw [hrun] at hev
      simp at hev
      rcases hev with h | h
      · exact hwp1 (hq ▸ successEvents_versions p1 e h)
      · apply hwv
        rw [← hq, h, RunEvent.version]
    · push_neg at hbegin
      have he2 : (begins v).2 = none :=
        Option.not_isSome_iff_eq_none.mp (by simpa using hbegin.1)
      have ht2 : (begins v).1.isSome = true :=
        Option.ne_none_iff_isSome.mp hbegin.2
      have hb2 : body v = false := by
        rcases hfail with h | h | h
        · exact absurd h (by simpa using hbegin.1)
        · exact absurd h hbegin.2
        · exact h
      have hrun := hbodyf he2 ht2 hb2
      rw [hrun] at hev
      simp at hev
      rcases hev with h | h | h | h
      · exact hwp1 (hq ▸ successEvents_versions p1 e h)
      · apply hwv; rw [← hq, h, RunEvent.version]
      · apply hwv; rw [← hq, h, RunEvent.version]
      · apply hwv; rw [← hq, h, RunEvent.version]

/-- Witness for C2 at the spec's example: registry with versions 5, 2, 3,
lastMigration 1, begin succeeding everywhere and the body failing at
version 3. The runner applies 2, rolls 3 back with the body error, and
produces no event for 5. -/
theorem migration_run_order_witness :
    Run [5, 2, 3] 1 (fun v => (some v, none)) (fun v => v != 3)
        (fun _ => true) =
      ([RunEvent.beginTx 2, RunEvent.applyBody 2, RunEvent.commitTx 2,
        RunEvent.beginTx 3, RunEvent.applyBody 3, RunEvent.rollbackTx 3],
        some (RunError.bodyFailed 3)) := by
  have h := ((migration_run_order [5, 2, 3] 1 (fun v => (some v, none))
      (fun v => v != 3) (fun _ => true) (by decide)).2.2.2 [2] 3 [5]
      (by decide) (by decide)).2.1 (by decide) (by decide) (by decide)
  simpa [successEvents] using h

/-- Claim C4: when Begin fails, sqlMigrator.beginTransaction does not raise:
it returns normally with a bundle whose SQL transaction handle is nil, and
the runner checks the handle for nil before treating the bundle as usable —
a version whose Begin errored never has its body applied. -/
theorem beginTransaction_nil_on_error (txRes : Option Nat) (e : String)
    (next : Unit → migrationData)
    (begins : Nat → Option Nat × Option String) (body commit : Nat → Bool)
    (v : Nat) (rest : List Nat) (hv : (begins v).2.isSome = true) :
    (sqlMigrator_beginTransaction txRes (some e) next).1.SQLTx = none ∧
    RunEvent.applyBody v ∉ (runPending begins body commit (v :: rest)).1 := by
  constructor
  · simp [sqlMigrator_beginTransaction]
  · rw [runPending_begin_fail begins body commit v rest (Or.inl hv)]
    simp

/-- Witness for C4 at the Begin error of TestBeginTransactionDBError: the
returned bundle has a nil handle and version 7's body is never applied. -/
theorem beginTransaction_nil_on_error_witness :
    (sqlMigrator_beginTransaction none (some "failed to begin transaction")
        (fun _ => ⟨none, none⟩)).1.SQLTx = none ∧
    RunEvent.applyBody 7 ∉
      (runPending (fun _ => (none, some "failed to begin transaction"))
        (fun _ => true) (fun _ => true) [7]).1 :=
  beginTransaction_nil_on_error none "failed to begin transaction"
    (fun _ => ⟨none, none⟩) (fun _ => (none, some "failed to begin transaction"))
    (fun _ => true) (fun _ => true) 7 [] (by decide)

/-- Claim C5: sqlMigrator.rollback on a bundle with no open SQL transaction
is a safe no-op: it returns normally and performs no database operation. -/
theorem rollback_noop (data : migrationData) (h : data.SQLTx = none) :
    sqlMigrator_rollback data = [] := by
  simp [sqlMigrator_rollback, h]

/-- Witness for C5 at the empty bundle of TestRollbackNoTransaction. -/
theorem rollback_noop_witness :
    sqlMigrator_rollback ⟨none, none⟩ = [] :=
  rollback_noop ⟨none, none⟩ rfl

/-- Claim C10: sqlMigrator.beginTransaction consults the next migrator in
the chain only when Begin succeeds: on success it delegates (flag true) and
returns the next migrator's bundle with the SQL handle Begin produced, while
on a Begin error it returns an empty bundle immediately with the next
migrator never invoked (flag false). -/
theorem beginTransaction_delegation (txRes : Option Nat)
    (errRes : Option String) (next : Unit → migrationData) :
    (errRes = none →
      sqlMigrator_beginTransaction txRes errRes next =
        ({ next () with SQLTx := txRes }, true)) ∧
    (∀ e, errRes = some e →
      sqlMigrator_beginTransaction txRes errRes next =
        (⟨none, none⟩, false)) := by
  constructor
  · intro h
    simp [sqlMigrator_beginTransaction, h]
  · intro e h
    simp [sqlMigrator_beginTransaction, h]

/-- Witness for C10 at the two tests: Begin success with a nil mock handle
delegates and yields the next migrator's empty bundle (the expected
migrationData of TestBeginTransactionSuccess), while the Begin error of
TestBeginTransactionDBError yields an empty bundle without delegation. -/
theorem beginTransaction_delegation_witness :
    sqlMigrator_beginTransaction none none (fun _ => ⟨none, none⟩) =
        (⟨none, none⟩, true) ∧
    sqlMigrator_beginTransaction none (some "failed to begin transaction")
        (fun _ => ⟨none, none⟩) =
      (⟨none, none⟩, false) :=
  ⟨(beginTransaction_delegation none none (fun _ => ⟨none, none⟩)).1 rfl,
    (beginTransaction_delegation none (some "failed to begin transaction")
      (fun _ => ⟨none, none⟩)).2 "failed to begin transaction" rfl⟩

/-- Pool statistics snapshot, mirroring sql.DBStats as enumerated in
TestContainer_Health. -/
structure DBStats where
  maxOpenConnections : Nat
  openConnections : Nat
  inUse : Nat
  idle : Nat
  waitCount : Nat
  waitDuration : Nat
  maxIdleClosed : Nat
  maxIdleTimeClosed : Nat
  maxLifetimeClosed : Nat
deriving DecidableEq, Repr

/-- A value stored in a health report's details map. -/
inductive HealthDetail where
  | str (s : String)
  | stats (st : DBStats)
deriving DecidableEq, Repr

/-- Health report: a status string and a details map, as in
datasource.Health. -/
structure Health where
  status : String
  details : List (String × HealthDetail)
deriving DecidableEq, Repr

/-- Modelled from the spec and TestContainer_Health: the SQL health check
probes liveness; on probe failure it reports status DOWN with the host and a
descriptive error in the details, and on success status UP with the host
and the current pool statistics. -/
def healthCheck (host : String) (probe : Except String DBStats) : Health :=
  match probe with
  | Except.error e =>
    ⟨"DOWN", [("host", HealthDetail.str host), ("error", HealthDetail.str e)]⟩
  | Except.ok st =>
    ⟨"UP", [("host", HealthDetail.str host), ("stats", HealthDetail.stats st)]⟩

/-- Claim C9: on every invocation, a failed liveness probe yields status
DOWN with the descriptive error in the details, and a successful probe
yields status UP with the current pool statistics in the details. -/
theorem healthCheck_status (host e : String) (st : DBStats) :
    (healthCheck host (Except.error e)).status = "DOWN" ∧
    ("error", HealthDetail.str e) ∈ (healthCheck host (Except.error e)).details ∧
    (healthCheck host (Except.ok st)).status = "UP" ∧
    ("stats", HealthDetail.stats st) ∈ (healthCheck host (Except.ok st)).details := by
  refine ⟨rfl, ?_, rfl, ?_⟩ <;> simp [healthCheck]

/-- A gauge publication against the metrics sink. -/
inductive MetricsOp where
  | setGauge (name : String) (value : Nat)
deriving DecidableEq, Repr

/-- The metric name of a gauge publication. -/
def MetricsOp.gaugeName : MetricsOp → String
  | .setGauge n _ => n

/-- One tick of the pool statistics sampler. The two published gauges and
their names are pinned by the SetGauge expectations of
Test_SQLRetryConnectionInfoLog: the open-connections and in-use counts are
published under the app_ prefixed names, and nothing else is published. -/
def pushDBMetricsTick (st : DBStats) : List MetricsOp :=
  [MetricsOp.setGauge "app_sql_open_connections" st.openConnections,
    MetricsOp.setGauge "app_sql_inUse_connections" st.inUse]

/-- Counterexample to C8 as stated: at the pool snapshot of
TestContainer_Health, the sampling tick publishes gauges named
app_sql_open_connections and app_sql_inUse_connections only — no gauge is
named sql_open_connections or sql_inuse_connections, and the remaining
PoolStats fields are not published. -/
theorem pushDBMetricsTick_names_counterexample :
    (pushDBMetricsTick ⟨0, 1, 0, 1, 0, 0, 0, 0, 0⟩).map MetricsOp.gaugeName =
        ["app_sql_open_connections", "app_sql_inUse_connections"] ∧
    "sql_open_connections" ∉
        (pushDBMetricsTick ⟨0, 1, 0, 1, 0, 0, 0, 0, 0⟩).map
          MetricsOp.gaugeName ∧
    "sql_inuse_connections" ∉
        (pushDBMetricsTick ⟨0, 1, 0, 1, 0, 0, 0, 0, 0⟩).map
          MetricsOp.gaugeName := by
  refine ⟨rfl, ?_, ?_⟩ <;> simp [pushDBMetricsTick, MetricsOp.gaugeName]

/-- Claim C8 (amended): on every sampling tick the connection manager
publishes exactly two gauges, named app_sql_open_connections and
app_sql_inUse_connections, carrying the pool's open and in-use connection
counts; the remaining PoolStats fields are not published as gauges. -/
theorem pushDBMetricsTick_names (st : DBStats) :
    MetricsOp.setGauge "app_sql_open_connections" st.openConnections ∈
        pushDBMetricsTick st ∧
    MetricsOp.setGauge "app_sql_inUse_connections" st.inUse ∈
        pushDBMetricsTick st ∧
    ∀ op ∈ pushDBMetricsTick st,
      MetricsOp.gaugeName op = "app_sql_open_connections" ∨
        MetricsOp.gaugeName op = "app_sql_inUse_connections" := by
  refine ⟨by simp [pushDBMetricsTick], by simp [pushDBMetricsTick], ?_⟩
  intro op hop
  simp [pushDBMetricsTick] at hop
  rcases hop with h | h <;> subst h <;> simp [MetricsOp.gaugeName]

/-- Witness for the amended C8 at the pool snapshot of TestContainer_Health:
the open-connections gauge is published and every published gauge carries
one of the two app_ prefixed names. -/
theorem pushDBMetricsTick_names_witness :
    MetricsOp.setGauge "app_sql_open_connections" 1 ∈
        pushDBMetricsTick ⟨0, 1, 0, 1, 0, 0, 0, 0, 0⟩ ∧
    (MetricsOp.gaugeName
          (MetricsOp.setGauge "app_sql_inUse_connections" 0) =
        "app_sql_open_connections" ∨
      MetricsOp.gaugeName
          (MetricsOp.setGauge "app_sql_inUse_connections" 0) =
        "app_sql_inUse_connections") :=
  ⟨(pushDBMetricsTick_names ⟨0, 1, 0, 1, 0, 0, 0, 0, 0⟩).1,
    (pushDBMetricsTick_names ⟨0, 1, 0, 1, 0, 0, 0, 0, 0⟩).2.2
      (MetricsOp.setGauge "app_sql_inUse_connections" 0)
      (by simp [pushDBMetricsTick])⟩

end Gofr
